import Mathlib

/-!
Shallow embedding of `build.py`, the build-matrix orchestrator of the
discord-rpc repository: platform resolution, the variant matrix (`libs`),
per-variant external command construction (`build_lib`), the signing pass
(`sign`), the archiver (`archive`), and the default CLI pipeline (`cli`).
Environment-dependent inputs (the `CI` variable, `sys.platform`,
`SCRIPT_PATH`, `WindowsSdkDir`, the contents of the install tree) are
passed as explicit parameters.
-/

namespace Build

/-- Platform identifiers returned by `get_platform()`: `win`, `osx`, `linux`
(an unsupported `sys.platform` raises before anything else runs, so it is
outside the model). -/
inductive Platform
  | win
  | osx
  | linux
deriving DecidableEq, Repr

/-- A value stored in an options dict in `build.py`: Python `bool` or `str`.
`build_lib` coerces booleans to the tokens ON/OFF when rendering. -/
inductive OptVal
  | bool (b : Bool)
  | str (s : String)
deriving DecidableEq, Repr

/-- One build variant, i.e. one `build_lib(build_name, generator, options,
just_release)` call: the dict `options` is modelled as an association list
in insertion order. -/
structure Variant where
  name : String
  generator : Option String
  options : List (String × OptVal)
  just_release : Bool
deriving DecidableEq, Repr

/-- `IS_BUILD_MACHINE = os.environ.get('CI', '') == 'true'`; the parameter
`ci` is the value of the `CI` environment variable (`none` when unset). -/
def IS_BUILD_MACHINE (ci : Option String) : Bool :=
  (ci.getD "") == "true"

/-- The flag arguments of the `libs` command
(`--clean --static --shared --skip_formatter --just_release`). -/
structure LibsArgs where
  clean : Bool
  static : Bool
  shared : Bool
  skip_formatter : Bool
  just_release : Bool
deriving DecidableEq, Repr

/-- `generator32 = 'Visual Studio 14 2015'` (from `libs`, Windows branch). -/
def generator32 : String := "Visual Studio 14 2015"

/-- `generator64 = 'Visual Studio 14 2015 Win64'` (from `libs`, Windows branch). -/
def generator64 : String := "Visual Studio 14 2015 Win64"

/-- The initial value of `static_options` in `libs`: the empty dict. -/
def static_options0 : List (String × OptVal) := []

/-- The initial value of `dynamic_options` in `libs`:
`{'BUILD_SHARED_LIBS': True, 'USE_STATIC_CRT': True}`. -/
def dynamic_options0 : List (String × OptVal) :=
  [("BUILD_SHARED_LIBS", OptVal.bool true), ("USE_STATIC_CRT", OptVal.bool true)]

/-- The `libs` command of `build.py`, as the list of `build_lib` calls it
makes, in order (the `--clean` removal of `builds` and the `mkdir` are
filesystem side effects with no influence on the produced matrix).
Mirrors the source: normalize `static`/`shared` (both default to true when
neither is given), extend both option dicts with `CLANG_FORMAT_SUFFIX =
'none'` when the formatter is skipped or the run is on a build machine,
force `just_release` on a build machine, then dispatch on the platform. -/
def libs (buildMachine : Bool) (platform : Platform) (a : LibsArgs) :
    List Variant :=
  let static := if !(a.static || a.shared) then true else a.static
  let shared := if !(a.static || a.shared) then true else a.shared
  let static_options :=
    if a.skip_formatter || buildMachine then
      static_options0 ++ [("CLANG_FORMAT_SUFFIX", OptVal.str "none")]
    else static_options0
  let dynamic_options :=
    if a.skip_formatter || buildMachine then
      dynamic_options0 ++ [("CLANG_FORMAT_SUFFIX", OptVal.str "none")]
    else dynamic_options0
  let just_release := if buildMachine then true else a.just_release
  match platform with
  | Platform.win =>
      (if static then
        [⟨"win32-static", some generator32, static_options, just_release⟩,
         ⟨"win64-static", some generator64, static_options, just_release⟩]
       else []) ++
      (if shared then
        [⟨"win32-dynamic", some generator32, dynamic_options, just_release⟩,
         ⟨"win64-dynamic", some generator64, dynamic_options, just_release⟩]
       else [])
  | Platform.osx =>
      (if static then [⟨"osx-static", none, static_options, just_release⟩]
       else []) ++
      (if shared then [⟨"osx-dynamic", none, dynamic_options, just_release⟩]
       else [])
  | Platform.linux =>
      (if static then [⟨"linux-static", none, static_options, just_release⟩]
       else []) ++
      (if shared then [⟨"linux-dynamic", none, dynamic_options, just_release⟩]
       else [])

/-- Rendering of an option value in `build_lib`:
`'ON' if val else 'OFF'` for booleans, the string itself otherwise. -/
def renderOptVal : OptVal → String
  | OptVal.bool b => if b then "ON" else "OFF"
  | OptVal.str s => s

/-- The `initial_cmake` argument list built in `build_lib`: `cmake`, the
source root, the install-prefix definition (`os.path.join('..', 'install',
build_name)` rendered with `/` separators), `-G <generator>` when a
generator is given, then one `-D<key>=<value>` token per option in dict
order. -/
def initial_cmake (scriptPath : String) (buildName : String)
    (generator : Option String) (options : List (String × OptVal)) :
    List String :=
  ["cmake", scriptPath, "-DCMAKE_INSTALL_PREFIX=../install/" ++ buildName]
  ++ (match generator with
      | some g => ["-G", g]
      | none => [])
  ++ options.map (fun kv => "-D" ++ kv.1 ++ "=" ++ renderOptVal kv.2)

/-- `['cmake', '--build', '.', '--config', 'Debug']` (from `build_lib`). -/
def debug_build_cmd : List String :=
  ["cmake", "--build", ".", "--config", "Debug"]

/-- `['cmake', '--build', '.', '--config', 'Release', '--target', 'install']`
(from `build_lib`). -/
def release_install_cmd : List String :=
  ["cmake", "--build", ".", "--config", "Release", "--target", "install"]

/-- The external commands `build_lib` runs for one variant, in order: the
configure step, the Debug build step unless `just_release`, and always the
Release build step with the explicit `install` target. -/
def build_lib (scriptPath : String) (v : Variant) : List (List String) :=
  [initial_cmake scriptPath v.name v.generator v.options]
  ++ (if v.just_release then [] else [debug_build_cmd])
  ++ [release_install_cmd]

/-- `os.path.normpath` on a path given as a list of components, restricted
to the removal of `.` components — the only normalization that arises for
the paths `archive` builds (no `..`, no empty components). -/
def normpathComponents (cs : List String) : List String :=
  cs.filter (fun c => c ≠ ".")

/-- `archive_dst_base_path = 'discord-rpc'` (from `archive`). -/
def archive_dst_base_path : String := "discord-rpc"

/-- The destination path `archive` gives a file found by `os.walk('.')` at
relative components `rel` inside the install root:
`os.path.normpath(os.path.join(archive_dst_base_path, fpath))` where
`fpath = os.path.join(path, fname)` starts with the `.` that `os.walk('.')`
puts in front. -/
def archiveDstPath (rel : List String) : List String :=
  normpathComponents (archive_dst_base_path :: "." :: rel)

/-- The `archive` command of `build.py`, as the list of (entry path, entry
bytes) pairs it writes to the fresh zip file, in walk order: the install
tree is given as the list of its files, each a (path components relative
to the install root, file contents) pair. -/
def archive (files : List (List String × List Nat)) :
    List (List String × List Nat) :=
  files.map (fun f => (archiveDstPath f.1, f.2))

/-- The extension as computed by `os.path.splitext(fname)[1]` on a bare
file name: the suffix starting at the last dot, unless every character
before that dot is itself a dot (leading dots do not begin an extension). -/
def splitextExt (fname : String) : String :=
  let rev := fname.toList.reverse
  let revPost := rev.takeWhile (fun c => c ≠ '.')
  match rev.dropWhile (fun c => c ≠ '.') with
  | [] => ""
  | _ :: revPre =>
      if revPre.all (fun c => c = '.') then ""
      else String.mk ('.' :: revPost.reverse)

/-- The set `signable_extensions` built in `sign`: `.dll` on Windows,
`.dylib` on macOS, empty on Linux (where `sign` returns before building
it). -/
def signable_extensions (p : Platform) : List String :=
  match p with
  | Platform.win => [".dll"]
  | Platform.osx => [".dylib"]
  | Platform.linux => []

/-- `get_signtool()`: the Windows SDK `signtool.exe` (under the directory
named by the `WindowsSdkDir` environment variable, rendered with `/`
separators), `codesign` on macOS, and `None` (fall-through) on Linux. -/
def get_signtool (p : Platform) (windowsSdkDir : String) : Option String :=
  match p with
  | Platform.win => some (windowsSdkDir ++ "/bin/x86/signtool.exe")
  | Platform.osx => some "/usr/bin/codesign"
  | Platform.linux => none

/-- `sign_command_base` as built in `sign` for the two signing platforms. -/
def sign_command_base (p : Platform) (windowsSdkDir : String) : List String :=
  match p with
  | Platform.win =>
      [(get_signtool Platform.win windowsSdkDir).getD "",
       "sign",
       "/n", "Hammer & Chisel Inc.",
       "/a",
       "/tr", "http://timestamp.digicert.com/rfc3161",
       "/as",
       "/td", "sha256",
       "/fd", "sha256"]
  | Platform.osx =>
      [(get_signtool Platform.osx windowsSdkDir).getD "",
       "--keychain", "~/Library/Keychains/login.keychain",
       "-vvvv",
       "--deep",
       "--force",
       "--sign", "Developer ID Application: Hammer & Chisel Inc. (53Q6R32WPB)"]
  | Platform.linux => []

/-- The `sign` command of `build.py`, as the list of external signing
invocations it makes, in walk order. The install tree is given as the list
of its files, each a (containing directory path, file name) pair as
produced by `os.walk(INSTALL_ROOT)`. On Linux the command logs and returns
without walking; otherwise each file whose `splitext` extension lies in
`signable_extensions` yields one invocation `sign_command_base + [fpath]`. -/
def sign (p : Platform) (windowsSdkDir : String)
    (files : List (String × String)) : List (List String) :=
  match p with
  | Platform.linux => []
  | _ =>
      (files.filter
        (fun f => (signable_extensions p).contains (splitextExt f.2))).map
        (fun f => sign_command_base p windowsSdkDir ++ [f.1 ++ "/" ++ f.2])

/-- The three pipeline stages the top-level `cli` group can invoke. -/
inductive Stage
  | libs
  | sign
  | archive
deriving DecidableEq, Repr

/-- The default entry point (`cli` with no subcommand): invoke `libs`,
then `sign` only on a build machine, then `archive`. -/
def cli (buildMachine : Bool) : List Stage :=
  [Stage.libs] ++ (if buildMachine then [Stage.sign] else []) ++ [Stage.archive]

end Build

namespace Build

/-- C10: a run is detected as unattended if and only if the environment
variable `CI` holds exactly the string `true`; any other value, `1` and
`True` included, or an unset variable, keeps `IS_BUILD_MACHINE` false and
so keeps the default entry point on the attended pipeline (no sign
stage). -/
theorem is_build_machine_iff_ci_true (ci : Option String) :
    (IS_BUILD_MACHINE ci = true ↔ ci = some "true")
    ∧ (Stage.sign ∈ cli (IS_BUILD_MACHINE ci) ↔ ci = some "true") := by
  have hmain : IS_BUILD_MACHINE ci = true ↔ ci = some "true" := by
    cases ci <;> simp [IS_BUILD_MACHINE]
  refine ⟨hmain, ?_⟩
  rw [← hmain]
  cases IS_BUILD_MACHINE ci <;> simp [cli]

/-- C3: the default entry point runs the library build matrix first, runs
the sign stage exactly when the run is unattended, and runs the archive
stage last in every case. -/
theorem cli_default_sequencing (b : Bool) :
    (cli b).head? = some Stage.libs
    ∧ (cli b).getLast? = some Stage.archive
    ∧ (Stage.sign ∈ cli b ↔ b = true) := by
  cases b <;> decide

/-- C4: when neither link mode is requested, `libs` behaves as if both had
been requested, and the resulting matrix is never empty. -/
theorem libs_defaults_to_both_modes (b : Bool) (p : Platform) (a : LibsArgs)
    (h1 : a.static = false) (h2 : a.shared = false) :
    libs b p a = libs b p ⟨a.clean, true, true, a.skip_formatter, a.just_release⟩
    ∧ libs b p a ≠ [] := by
  rcases a with ⟨c, s, sh, sf, jr⟩
  cases h1; cases h2
  cases b <;> cases p <;> cases c <;> cases sf <;> cases jr <;> decide

/-- C4 witness: the two-mode default at a concrete input. -/
theorem libs_defaults_to_both_modes_witness :
    libs false Platform.linux ⟨false, false, false, false, false⟩
        = libs false Platform.linux ⟨false, true, true, false, false⟩
    ∧ libs false Platform.linux ⟨false, false, false, false, false⟩ ≠ [] :=
  libs_defaults_to_both_modes false Platform.linux
    ⟨false, false, false, false, false⟩ rfl rfl

/-- C5: on an unattended run every variant `libs` produces has
`just_release = true`, whatever the caller passed. -/
theorem libs_unattended_forces_just_release (p : Platform) (a : LibsArgs) :
    ∀ v ∈ libs true p a, v.just_release = true := by
  rcases a with ⟨c, s, sh, sf, jr⟩
  cases p <;> cases c <;> cases s <;> cases sh <;> cases sf <;> cases jr <;>
    decide

/-- C5 witness: a concrete variant of an unattended run, with the caller
having requested `just_release = false`, still has `just_release = true`. -/
theorem libs_unattended_forces_just_release_witness :
    Variant.just_release
        ⟨"linux-static", none, [("CLANG_FORMAT_SUFFIX", OptVal.str "none")],
         true⟩ = true :=
  libs_unattended_forces_just_release Platform.linux
    ⟨false, false, false, false, false⟩
    ⟨"linux-static", none, [("CLANG_FORMAT_SUFFIX", OptVal.str "none")], true⟩
    (by decide)

/-- C8: a variant's option set contains the `CLANG_FORMAT_SUFFIX` key
exactly when the formatter is skipped or the run is unattended; when both
are false no variant carries it. -/
theorem libs_formatter_option_iff (b : Bool) (p : Platform) (a : LibsArgs) :
    ∀ v ∈ libs b p a,
      (v.options.map Prod.fst).contains "CLANG_FORMAT_SUFFIX"
        = (a.skip_formatter || b) := by
  rcases a with ⟨c, s, sh, sf, jr⟩
  cases b <;> cases p <;> cases c <;> cases s <;> cases sh <;> cases sf <;>
    cases jr <;> decide

/-- C8 witness: with the formatter skipped, a concrete produced variant
carries the formatter-disable option. -/
theorem libs_formatter_option_iff_witness :
    ((Variant.options
        ⟨"linux-static", none, [("CLANG_FORMAT_SUFFIX", OptVal.str "none")],
         false⟩).map Prod.fst).contains "CLANG_FORMAT_SUFFIX" = (true || false) :=
  libs_formatter_option_iff false Platform.linux
    ⟨false, false, false, true, false⟩
    ⟨"linux-static", none, [("CLANG_FORMAT_SUFFIX", OptVal.str "none")], false⟩
    (by decide)

end Build

namespace Build

/-- C2: for a normalized intent, Windows with both link modes requested
yields exactly 4 variants whose generators alternate between the two
distinct per-bitness generators, while macOS and Linux yield one variant
per requested link mode. -/
theorem libs_matrix_sizes (b : Bool) (a : LibsArgs)
    (hnorm : a.static = true ∨ a.shared = true) :
    (a.static = true → a.shared = true →
        (libs b Platform.win a).length = 4
        ∧ (libs b Platform.win a).map Variant.generator
            = [some generator32, some generator64,
               some generator32, some generator64]
        ∧ generator32 ≠ generator64)
    ∧ (libs b Platform.osx a).length = a.static.toNat + a.shared.toNat
    ∧ (libs b Platform.linux a).length = a.static.toNat + a.shared.toNat := by
  rcases a with ⟨c, s, sh, sf, jr⟩
  cases s <;> cases sh <;> cases b <;> cases c <;> cases sf <;> cases jr <;>
    first
      | exact absurd hnorm (by decide)
      | decide

/-- C2 witness: the matrix sizes at a concrete both-modes intent. -/
theorem libs_matrix_sizes_witness :
    (libs false Platform.win ⟨false, true, true, false, false⟩).length = 4
    ∧ (libs false Platform.osx ⟨false, true, true, false, false⟩).length = 2 := by
  have h := libs_matrix_sizes false ⟨false, true, true, false, false⟩ (Or.inl rfl)
  exact ⟨(h.1 rfl rfl).1, h.2.1⟩

/-- The third token of every configure command is the install-prefix
definition, whatever the generator and options are. -/
theorem initial_cmake_third (sp n : String) (g : Option String)
    (o : List (String × OptVal)) :
    (initial_cmake sp n g o).get? 2
      = some ("-DCMAKE_INSTALL_PREFIX=../install/" ++ n) := rfl

/-- A configure command is never the Debug build command: their third
tokens have different lengths. -/
theorem initial_cmake_ne_debug (sp n : String) (g : Option String)
    (o : List (String × OptVal)) :
    initial_cmake sp n g o ≠ debug_build_cmd := by
  intro h
  have h2 : some ("-DCMAKE_INSTALL_PREFIX=../install/" ++ n)
      = some (".") := by
    rw [← initial_cmake_third sp n g o, h]; rfl
  have h3 : ("-DCMAKE_INSTALL_PREFIX=../install/" ++ n).length
      = (".").length := by rw [Option.some.inj h2]
  rw [String.length_append] at h3
  have h4 : ("-DCMAKE_INSTALL_PREFIX=../install/").length = 34 := rfl
  have h5 : (".").length = 1 := rfl
  rw [h4, h5] at h3
  omega

/-- C6: the Build Executor's command sequence contains the Debug build
step exactly when the variant's `just_release` flag is false, and its last
command is always the Release build with the explicit `install` target. -/
theorem build_lib_debug_release_steps (sp : String) (v : Variant) :
    (debug_build_cmd ∈ build_lib sp v ↔ v.just_release = false)
    ∧ (build_lib sp v).getLast? = some release_install_cmd := by
  have hne : debug_build_cmd ≠ initial_cmake sp v.name v.generator v.options :=
    fun h => initial_cmake_ne_debug sp v.name v.generator v.options h.symm
  have hne2 : debug_build_cmd ≠ release_install_cmd := by decide
  cases hjr : v.just_release
  · exact ⟨by simp [build_lib, hjr], by simp [build_lib, hjr]⟩
  · exact ⟨by simp [build_lib, hjr, hne, hne2], by simp [build_lib, hjr]⟩

/-- C9: the shared-only release-only intent on a non-Windows platform
(attended, formatter kept) yields exactly one variant, its name ends in
`dynamic`, its option set is exactly the shared-libs and static-runtime
booleans, both rendered as `-D...=ON` tokens of the configure command,
while the static base option set is empty. -/
theorem libs_shared_only_scenario (p : Platform) (sp : String)
    (hp : p ≠ Platform.win) :
    (libs false p ⟨false, false, true, false, true⟩).length = 1
    ∧ (∀ v ∈ libs false p ⟨false, false, true, false, true⟩,
        ("dynamic".toList).isSuffixOf v.name.toList = true
        ∧ v.options = dynamic_options0
        ∧ "-DBUILD_SHARED_LIBS=ON"
            ∈ initial_cmake sp v.name v.generator v.options
        ∧ "-DUSE_STATIC_CRT=ON"
            ∈ initial_cmake sp v.name v.generator v.options)
    ∧ static_options0 = [] := by
  cases p
  · exact absurd rfl hp
  · refine ⟨rfl, ?_, rfl⟩
    intro v hv
    have hv' : v = ⟨"osx-dynamic", none, dynamic_options0, true⟩ := by
      simpa [libs, dynamic_options0] using hv
    subst hv'
    refine ⟨by decide, rfl, ?_, ?_⟩
    · have he : initial_cmake sp "osx-dynamic" none dynamic_options0
          = ["cmake", sp, "-DCMAKE_INSTALL_PREFIX=../install/osx-dynamic",
             "-DBUILD_SHARED_LIBS=ON", "-DUSE_STATIC_CRT=ON"] := rfl
      rw [he]; simp
    · have he : initial_cmake sp "osx-dynamic" none dynamic_options0
          = ["cmake", sp, "-DCMAKE_INSTALL_PREFIX=../install/osx-dynamic",
             "-DBUILD_SHARED_LIBS=ON", "-DUSE_STATIC_CRT=ON"] := rfl
      rw [he]; simp
  · refine ⟨rfl, ?_, rfl⟩
    intro v hv
    have hv' : v = ⟨"linux-dynamic", none, dynamic_options0, true⟩ := by
      simpa [libs, dynamic_options0] using hv
    subst hv'
    refine ⟨by decide, rfl, ?_, ?_⟩
    · have he : initial_cmake sp "linux-dynamic" none dynamic_options0
          = ["cmake", sp, "-DCMAKE_INSTALL_PREFIX=../install/linux-dynamic",
             "-DBUILD_SHARED_LIBS=ON", "-DUSE_STATIC_CRT=ON"] := rfl
      rw [he]; simp
    · have he : initial_cmake sp "linux-dynamic" none dynamic_options0
          = ["cmake", sp, "-DCMAKE_INSTALL_PREFIX=../install/linux-dynamic",
             "-DBUILD_SHARED_LIBS=ON", "-DUSE_STATIC_CRT=ON"] := rfl
      rw [he]; simp

/-- C9 witness: the scenario at the Linux platform. -/
theorem libs_shared_only_scenario_witness :
    (libs false Platform.linux ⟨false, false, true, false, true⟩).length = 1 :=
  (libs_shared_only_scenario Platform.linux "SP" (by decide)).1

end Build

namespace Build

/-- C7: the sign pass makes exactly one invocation per file whose
extension lies in the platform's signable set and none for any other
file, and on Linux — where no signing tool is configured — it makes zero
invocations. -/
theorem sign_invocation_count (p : Platform) (sdk : String)
    (files : List (String × String)) :
    (sign p sdk files).length
      = (files.filter
          (fun f => (signable_extensions p).contains (splitextExt f.2))).length
    ∧ (∀ c ∈ sign p sdk files, ∃ f ∈ files,
        (signable_extensions p).contains (splitextExt f.2) = true
        ∧ c = sign_command_base p sdk ++ [f.1 ++ "/" ++ f.2])
    ∧ sign Platform.linux sdk files = [] := by
  refine ⟨?_, ?_, rfl⟩
  · cases p
    · simp [sign]
    · simp [sign]
    · have hnil : files.filter
          (fun f =>
            (signable_extensions Platform.linux).contains (splitextExt f.2))
          = [] :=
        List.filter_eq_nil_iff.mpr (fun a _ h => Bool.false_ne_true h)
      rw [hnil]
      rfl
  · cases p <;> intro c hc
    · rcases List.mem_map.mp hc with ⟨f, hf, rfl⟩
      have h := List.mem_filter.mp hf
      exact ⟨f, h.1, h.2, rfl⟩
    · rcases List.mem_map.mp hc with ⟨f, hf, rfl⟩
      have h := List.mem_filter.mp hf
      exact ⟨f, h.1, h.2, rfl⟩
    · cases hc

/-- C7 witness: on Windows, one install tree with one `.dll` and one
`.txt` file yields exactly as many invocations as it has signable files. -/
theorem sign_invocation_count_witness :
    (sign Platform.win "sdk" [("d", "a.dll"), ("d", "b.txt")]).length
      = ([(("d" : String), ("a.dll" : String)), ("d", "b.txt")].filter
          (fun f =>
            (signable_extensions Platform.win).contains
              (splitextExt f.2))).length :=
  (sign_invocation_count Platform.win "sdk" [("d", "a.dll"), ("d", "b.txt")]).1

/-- A path with no `.` component is untouched except for the fixed
top-level archive folder put in front. -/
theorem archiveDstPath_no_dot (rel : List String) (h : "." ∉ rel) :
    archiveDstPath rel = "discord-rpc" :: rel := by
  have h0 : archiveDstPath rel
      = "discord-rpc" :: rel.filter (fun c => c ≠ ".") := rfl
  rw [h0]
  congr 1
  exact List.filter_eq_self.mpr (fun a ha => by
    simp only [ne_eq, decide_eq_true_eq]
    intro hc
    exact h (hc ▸ ha))

/-- On an install tree whose relative paths have no `.` component, the
archiver is exactly the per-file prefixing map. -/
theorem archive_eq_map_of_no_dot (files : List (List String × List Nat))
    (hdot : ∀ f ∈ files, "." ∉ f.1) :
    archive files = files.map (fun f => ("discord-rpc" :: f.1, f.2)) := by
  unfold archive
  exact List.map_congr_left (fun f hf => by
    rw [archiveDstPath_no_dot f.1 (hdot f hf)])

/-- In the prefixed image of a duplicate-free install tree, filtering on
one file's archive path leaves exactly that file's entry. -/
theorem filter_path_unique (files : List (List String × List Nat))
    (hnd : (files.map Prod.fst).Nodup) (f : List String × List Nat)
    (hf : f ∈ files) :
    (files.map (fun q => ("discord-rpc" :: q.1, q.2))).filter
        (fun e => e.1 = "discord-rpc" :: f.1)
      = [("discord-rpc" :: f.1, f.2)] := by
  revert hnd hf
  induction files with
  | nil =>
      intro _ hf
      cases hf
  | cons a l ih =>
      intro hnd hf
      have hnd' : (l.map Prod.fst).Nodup := (List.nodup_cons.mp hnd).2
      have hna : a.1 ∉ l.map Prod.fst := (List.nodup_cons.mp hnd).1
      rw [List.map_cons]
      rcases List.mem_cons.mp hf with heq | hfl
      · subst heq
        rw [List.filter_cons_of_pos (by simp)]
        have ht : (l.map (fun q => ("discord-rpc" :: q.1, q.2))).filter
            (fun e => e.1 = "discord-rpc" :: f.1) = [] := by
          refine List.filter_eq_nil_iff.mpr ?_
          intro e he hp
          rcases List.mem_map.mp he with ⟨b, hb, rfl⟩
          simp only [decide_eq_true_eq, List.cons.injEq, true_and] at hp
          exact hna (hp ▸ List.mem_map_of_mem Prod.fst hb)
        rw [ht]
      · have hne : a.1 ≠ f.1 := by
          intro hh
          apply hna
          rw [hh]
          exact List.mem_map_of_mem Prod.fst hfl
        rw [List.filter_cons_of_neg (by simp [hne])]
        exact ih hnd' hfl

/-- C1: archiving a duplicate-free install tree (with no `.` path
component, as a filesystem walk guarantees) puts every file exactly once
at its relative path under the fixed `discord-rpc` folder, with identical
contents, and the archive holds no other entries. -/
theorem archive_roundtrip (files : List (List String × List Nat))
    (hnodup : (files.map Prod.fst).Nodup)
    (hdot : ∀ f ∈ files, "." ∉ f.1) :
    (∀ f ∈ files,
        (archive files).filter (fun e => e.1 = "discord-rpc" :: f.1)
          = [("discord-rpc" :: f.1, f.2)])
    ∧ ∀ e ∈ archive files, ∃ f ∈ files, e = ("discord-rpc" :: f.1, f.2) := by
  rw [archive_eq_map_of_no_dot files hdot]
  constructor
  · intro f hf
    exact filter_path_unique files hnodup f hf
  · intro e he
    rcases List.mem_map.mp he with ⟨f, hf, rfl⟩
    exact ⟨f, hf, rfl⟩

/-- C1 witness: a concrete two-file install tree, checked on its first
file. -/
theorem archive_roundtrip_witness :
    (archive [(["lib", "x.dll"], [1, 2]), (["y.txt"], [3])]).filter
        (fun e => e.1 = "discord-rpc" :: ["lib", "x.dll"])
      = [(("discord-rpc" :: ["lib", "x.dll"] : List String),
          ([1, 2] : List Nat))] := by
  have h := archive_roundtrip [(["lib", "x.dll"], [1, 2]), (["y.txt"], [3])]
    (by decide) (by decide)
  exact h.1 (["lib", "x.dll"], [1, 2]) (by decide)

end Build
